import Mathlib

set_option linter.unusedVariables false

/-!
Verification of the resource-mapping layer of
`memgpt/server/rest_api/openai_assistants/assistants.py`.

The handlers registered by `setup_openai_assistant_router` are embedded as
pure Lean functions.  Python-level failure modes (raised exceptions and the
fastapi `HTTPException`) are made explicit through the `HandlerError` sum
type and `Except` results.  The `SyncServer` / Agent-Engine collaborators
are not part of the source tree; where a handler calls into them the
collaborator is modelled from the specification's collaborator interfaces
(such definitions carry a `Modelled from the spec:` doc comment).
-/

namespace Assistants

/-- Internal 128-bit identifier, the embedding of Python `uuid.UUID` values. -/
structure UUID where
  val : Nat
deriving DecidableEq, Repr

/-- Value of a single hexadecimal digit character, or `none`. -/
def hexDigit? (c : Char) : Option Nat :=
  if ('0' ≤ c ∧ c ≤ '9') then some (c.toNat - '0'.toNat)
  else if ('a' ≤ c ∧ c ≤ 'f') then some (c.toNat - 'a'.toNat + 10)
  else if ('A' ≤ c ∧ c ≤ 'F') then some (c.toNat - 'A'.toNat + 10)
  else none

/-- Left fold of hexadecimal digits into a number, `none` on a non-hex digit. -/
def hexToNat? (cs : List Char) : Option Nat :=
  cs.foldl (fun acc c => acc.bind (fun n => (hexDigit? c).map (fun d => 16 * n + d))) (some 0)

/-- Embeds the `uuid.UUID(<string>)` constructor on its standard textual forms:
hyphens are stripped, the remainder must be exactly 32 hexadecimal digits.
`none` stands for the `ValueError` Python raises on malformed input.
(The urn/braced input forms accepted by Python are not exercised by any claim.) -/
def parseUUID (s : String) : Option UUID :=
  let hex := s.data.filter (fun c => c ≠ '-')
  if hex.length = 32 then (hexToNat? hex).map UUID.mk else none

/-- Hexadecimal character of a digit value below 16 (lower case, as Python prints). -/
def hexChar (n : Nat) : Char :=
  if n < 10 then Char.ofNat (48 + n) else Char.ofNat (97 + n - 10)

/-- The 32 hexadecimal digits of a UUID value, most significant first. -/
def toHex32 (n : Nat) : List Char :=
  (List.range 32).map (fun i => hexChar ((n / 16 ^ (31 - i)) % 16))

/-- Embeds `str(<uuid>)`: the canonical 8-4-4-4-12 hyphenated lower-case form. -/
def uuidToString (u : UUID) : String :=
  let h := toHex32 u.val
  ⟨h.take 8 ++ [chr45] ++ ((h.drop 8).take 4) ++ [chr45] ++ ((h.drop 12).take 4)
    ++ [chr45] ++ ((h.drop 16).take 4) ++ [chr45] ++ h.drop 20⟩
where
  chr45 : Char := '-'

/-- Failure modes of the embedded handlers.  `httpException` embeds a raised
fastapi `HTTPException(status_code, detail)`.  `invalidArgument` embeds the
`ValueError` raised by `uuid.UUID` on a malformed identifier — the
`InvalidArgument` condition of the error taxonomy.  `typeError` embeds the
`TypeError` raised by `uuid.UUID(None)`.  `nameError n` embeds Python's
`NameError` on the unbound name `n`.  `indexError` embeds `IndexError` from
indexing an empty list.  `notFound` is the collaborator `NotFound` condition. -/
inductive HandlerError where
  | httpException (status : Nat) (detail : String)
  | invalidArgument
  | typeError
  | nameError (name : String)
  | indexError
  | notFound
deriving DecidableEq, Repr

/-- The HTTP status code whose meaning is Not Found. -/
def NOT_FOUND_STATUS : Nat := 404

/-- The error every unimplemented handler raises:
`HTTPException(status_code=404, detail="Not yet implemented (coming soon)")`. -/
def notYetImplemented : HandlerError :=
  .httpException 404 ("Not yet implemented (coming soon)")

/-- Modelled from the spec: the single well-known default configuration
identifier `memgpt.constants.DEFAULT_PRESET` (its defining module is not under
`src/`; the concrete value is immaterial to every claim). -/
def DEFAULT_PRESET : String := "memgpt_chat"

/-- Internal message record held by the Message Store, the embedding of the
`memgpt.schemas.message.Message` objects the handlers construct (that module is
not under `src/`; the fields are the ones assistants.py reads and writes).
`created_at` is a unix timestamp in seconds. -/
structure AgentMessage where
  id : UUID
  user_id : Option UUID
  agent_id : UUID
  role : String
  text : String
  created_at : Nat
deriving DecidableEq, Repr

/-- The `llm_config` portion of an agent's state read by `create_run`. -/
structure LLMConfig where
  model : String
deriving DecidableEq, Repr

/-- Modelled from the spec: the internal Agent owned by the Agent Engine (§2,
§6) — identifier, creation timestamp, ordered message history, configuration. -/
structure Agent where
  id : UUID
  created_at : Nat
  messages : List AgentMessage
  llm_config : LLMConfig
deriving DecidableEq, Repr

/-- Modelled from the spec: the state behind the `SyncServer` collaborator —
the collection of existing Agents (the server itself is not under `src/`). -/
structure ServerState where
  agents : List Agent
deriving DecidableEq, Repr

/-- Modelled from the spec: `get_agent(id) -> Agent | NotFound` (§6), as a
lookup in the server state. -/
def findAgent (st : ServerState) (aid : UUID) : Option Agent :=
  st.agents.find? (fun a => decide (a.id = aid))

/-- Replace the stored copy of the agent carrying `agent.id`. -/
def updateAgent (st : ServerState) (agent : Agent) : ServerState :=
  { agents := st.agents.map (fun a => if a.id = agent.id then agent else a) }

/-- Modelled from the spec: `create_agent(owner) -> Agent` (§6) — allocates a
fresh Agent with an engine-chosen identifier, creation time and default
configuration and records it in the server state. -/
def server_create_agent (st : ServerState) (owner : UUID) (fresh_id : UUID)
    (now : Nat) (cfg : LLMConfig) : Agent × ServerState :=
  let agent : Agent := { id := fresh_id, created_at := now, messages := [], llm_config := cfg }
  (agent, { agents := st.agents ++ [agent] })

/-- Body of `POST /assistants` (assistants.py lines 29-42).  Pydantic fields
declared with a `None` default are embedded as `Option`s. -/
structure CreateAssistantRequest where
  model : String
  name : String
  description : Option String
  instructions : String
  tools : Option (List String)
  file_ids : Option (List String)
  metadata : Option (List (String × String))
  embedding_model : Option String
deriving DecidableEq, Repr

/-- Body of `POST /threads` (lines 45-50). -/
structure CreateThreadRequest where
  messages : Option (List String)
  metadata : Option (List (String × String))
  assistant_name : Option String
deriving DecidableEq, Repr

/-- Body of thread modification (lines 53-54). -/
structure ModifyThreadRequest where
  metadata : Option (List (String × String))
deriving DecidableEq, Repr

/-- Body of message modification (lines 57-58). -/
structure ModifyMessageRequest where
  metadata : Option (List (String × String))
deriving DecidableEq, Repr

/-- Body of run modification (lines 61-62). -/
structure ModifyRunRequest where
  metadata : Option (List (String × String))
deriving DecidableEq, Repr

/-- Body of `POST /threads/{id}/messages` (lines 65-69). -/
structure CreateMessageRequest where
  role : String
  content : String
  file_ids : Option (List String)
  metadata : Option (List (String × String))
deriving DecidableEq, Repr

/-- Tool-call shape carried opaquely by run requests (its defining schema
module is not under `src/`; no handler inspects it). -/
structure ToolCall where
  id : String
deriving DecidableEq, Repr

/-- Tool-call-output shape carried opaquely (schema module not under `src/`). -/
structure ToolCallOutput where
  id : String
deriving DecidableEq, Repr

/-- Body of `POST /threads/{id}/runs` (lines 99-105). -/
structure CreateRunRequest where
  assistant_id : String
  model : Option String
  instructions : String
  additional_instructions : Option String
  tools : Option (List ToolCall)
  metadata : Option (List (String × String))
deriving DecidableEq, Repr

/-- External Assistant shape as constructed by `create_assistant` (the schema
module is not under `src/`; fields follow the construction site and §3). -/
structure OpenAIAssistant where
  id : String
  name : String
  description : Option String
  created_at : Nat
  model : String
  instructions : String
  tools : Option (List String)
  file_ids : Option (List String)
  metadata : Option (List (String × String))
deriving DecidableEq, Repr

/-- External Thread shape `{id, created_at}` as constructed by the handlers. -/
structure OpenAIThread where
  id : String
  created_at : Nat
deriving DecidableEq, Repr

/-- Body of `POST /threads/runs` (lines 108-114). -/
structure CreateThreadRunRequest where
  assistant_id : String
  thread : OpenAIThread
  model : String
  instructions : String
  tools : Option (List ToolCall)
  metadata : Option (List (String × String))
deriving DecidableEq, Repr

/-- Body of tool-output submission (lines 135-136). -/
structure SubmitToolOutputsToRunRequest where
  tools_outputs : List ToolCallOutput
deriving DecidableEq, Repr

/-- Single text block of an external message's content. -/
structure Text where
  text : String
deriving DecidableEq, Repr

/-- External Message shape as constructed by the handlers (schema module not
under `src/`; fields follow the construction sites and §3). -/
structure OpenAIMessage where
  id : String
  created_at : Nat
  content : List Text
  role : String
  thread_id : String
  assistant_id : String
deriving DecidableEq, Repr

/-- Response of `GET /threads/{id}/messages` (lines 91-92). -/
structure ListMessagesResponse where
  messages : List OpenAIMessage
deriving DecidableEq, Repr

/-- External Run shape as constructed by `create_run` (schema module not under
`src/`; fields follow the construction site and §3). -/
structure OpenAIRun where
  id : String
  created_at : Nat
  thread_id : String
  assistant_id : String
  status : String
  expires_at : Nat
  model : String
  instructions : String
deriving DecidableEq, Repr

/-- External run-step shape (placeholder: schema module not under `src/` and
only ever promised by unimplemented handlers). -/
structure OpenAIRunStep where
  id : String
deriving DecidableEq, Repr

/-- Assistant-file shape as promised by the file handlers (schema module not
under `src/`). -/
structure AssistantFile where
  id : String
  created_at : Nat
  assistant_id : String
deriving DecidableEq, Repr

/-- Message-file shape (schema module not under `src/`). -/
structure MessageFile where
  id : String
deriving DecidableEq, Repr

/-- Response shape of assistant deletion (lines 117-120). -/
structure DeleteAssistantResponse where
  id : String
  object : String
  deleted : Bool
deriving DecidableEq, Repr

/-- Response shape of assistant-file deletion (lines 123-126). -/
structure DeleteAssistantFileResponse where
  id : String
  object : String
  deleted : Bool
deriving DecidableEq, Repr

/-- Response shape of thread deletion (lines 129-132). -/
structure DeleteThreadResponse where
  id : String
  object : String
  deleted : Bool
deriving DecidableEq, Repr

/-! Name resolution of `user_id`.

Python resolves a name read inside a nested function against the function's
own locals, the enclosing function scopes, the module globals and the
builtins.  The lists below transcribe every name bound in each of those
scopes in assistants.py. -/

/-- Names bound at module level of assistants.py: the imported names
(lines 1-24), `router` (line 26), the request/response model classes and
`setup_openai_assistant_router` (line 140). -/
def moduleScopeNames : List String :=
  ["uuid", "List", "Optional",
   "APIRouter", "Body", "HTTPException", "Path", "Query",
   "BaseModel", "Field",
   "DEFAULT_PRESET", "Message",
   "AssistantFile", "MessageFile", "MessageRoleType", "OpenAIAssistant",
   "OpenAIMessage", "OpenAIRun", "OpenAIRunStep", "OpenAIThread", "Text",
   "ToolCall", "ToolCallOutput",
   "QueuingInterface", "SyncServer", "get_utc_time",
   "router",
   "CreateAssistantRequest", "CreateThreadRequest", "ModifyThreadRequest",
   "ModifyMessageRequest", "ModifyRunRequest", "CreateMessageRequest",
   "UserMessageRequest", "UserMessageResponse", "GetAgentMessagesRequest",
   "ListMessagesResponse", "CreateAssistantFileRequest", "CreateRunRequest",
   "CreateThreadRunRequest", "DeleteAssistantResponse",
   "DeleteAssistantFileResponse", "DeleteThreadResponse",
   "SubmitToolOutputsToRunRequest",
   "setup_openai_assistant_router"]

/-- Names bound in the scope of `setup_openai_assistant_router`: its two
parameters (line 140) and the nested handler functions it defines. -/
def setupScopeNames : List String :=
  ["server", "interface",
   "create_assistant", "create_assistant_file", "list_assistants",
   "list_assistant_files", "retrieve_assistant", "retrieve_assistant_file",
   "modify_assistant", "delete_assistant", "delete_assistant_file",
   "create_thread", "retrieve_thread", "modify_thread", "delete_thread",
   "create_message", "list_messages", "retrieve_message",
   "retrieve_message_file", "modify_message", "create_run",
   "create_thread_and_run", "list_runs", "list_run_steps", "retrieve_run",
   "retrieve_run_step", "modify_run", "submit_tool_outputs_to_run",
   "cancel_run"]

/-- Local names of `create_thread` (lines 237-251): its parameter and its
assignments. -/
def createThreadLocalNames : List String := ["request", "agent_state"]

/-- Local names of `create_message` (lines 279-305). -/
def createMessageLocalNames : List String :=
  ["thread_id", "request", "agent_id", "message", "agent", "openai_message"]

/-- Local names of `list_messages` (lines 308-349). -/
def listMessagesLocalNames : List String :=
  ["thread_id", "limit", "order", "after", "before",
   "after_uuid", "before_uuid", "agent_id", "reverse", "cursor",
   "json_messages", "openai_messages"]

/-- Local names of `create_run` (lines 390-410). -/
def createRunLocalNames : List String :=
  ["thread_id", "request", "agent_id", "agent", "run_id", "create_time"]

/-- Transcribed from the source: no scope of assistants.py assigns the name
`user_id` (see `moduleScopeNames`, `setupScopeNames` and the per-handler local
name lists, and `user_id` is no Python builtin), so the binding the handlers
consult when they read `user_id` is absent.  The handlers below take this
binding as their first argument so that the embedding also describes a run in
which a module-global `user_id` has been injected from outside. -/
def module_user_id : Option UUID := none

/-! The implemented handlers.

Each handler is embedded as a pure function.  Ambient effects of the Python
code become explicit parameters: the consulted `user_id` binding (see
`module_user_id`), the server state, the engine-generated fresh identifiers,
the `get_utc_time()` clock reading, and — for `create_run` — the Agent
Engine's `step` behaviour, an external collaborator (§6). -/

/-- Embeds `create_assistant` (lines 142-155): builds an `OpenAIAssistant`
from the request with the fixed `DEFAULT_PRESET` identifier and the hard-coded
name string; touches no store. -/
def create_assistant (now : Nat) (request : CreateAssistantRequest) : OpenAIAssistant :=
  { id := DEFAULT_PRESET
  , name := "default_preset"
  , description := request.description
  , created_at := now
  , model := request.model
  , instructions := request.instructions
  , tools := request.tools
  , file_ids := request.file_ids
  , metadata := request.metadata }

/-- Embeds `create_thread` (lines 236-251): reads the unbound name `user_id`
(a `NameError` unless a binding was injected), then allocates an Agent via
`server.create_agent` and returns its stringified id and creation time.
The request's fields are ignored by the source. -/
def create_thread (user_id? : Option UUID) (st : ServerState) (fresh_id : UUID)
    (now : Nat) (cfg : LLMConfig) (request : CreateThreadRequest) :
    Except HandlerError (OpenAIThread × ServerState) :=
  match user_id? with
  | none => .error (.nameError ("user_id"))
  | some uid =>
    let (agent_state, st1) := server_create_agent st uid fresh_id now cfg
    .ok ({ id := uuidToString agent_state.id, created_at := agent_state.created_at }, st1)

/-- Embeds `retrieve_thread` (lines 253-261): `uuid.UUID(thread_id)` (a
`ValueError` — the InvalidArgument condition — on malformed input), then
`server.get_agent` (modelled from the spec: `get_agent(id) -> Agent |
NotFound`, §6), returning the Agent's stringified id and creation time. -/
def retrieve_thread (st : ServerState) (thread_id : String) :
    Except HandlerError OpenAIThread :=
  match parseUUID thread_id with
  | none => .error .invalidArgument
  | some tid =>
    match findAgent st tid with
    | none => .error .notFound
    | some agent => .ok { id := uuidToString agent.id, created_at := agent.created_at }

/-- Embeds `create_message` (lines 278-305) in source order: parse
`thread_id` (line 283), construct the `Message` — whose first keyword argument
reads the unbound name `user_id` (line 286) —, load the agent (modelled from
the spec: `load_agent(owner, id) -> Agent`, `NotFound` when the thread does
not resolve, §4.1/§6), append the message to its history, and return the
external shape with the content wrapped as a single text block. -/
def create_message (user_id? : Option UUID) (st : ServerState)
    (fresh_message_id : UUID) (now : Nat) (thread_id : String)
    (request : CreateMessageRequest) :
    Except HandlerError (OpenAIMessage × ServerState) :=
  match parseUUID thread_id with
  | none => .error .invalidArgument
  | some agent_id =>
    match user_id? with
    | none => .error (.nameError ("user_id"))
    | some uid =>
      let message : AgentMessage :=
        { id := fresh_message_id, user_id := some uid, agent_id := agent_id
        , role := request.role, text := request.content, created_at := now }
      match findAgent st agent_id with
      | none => .error .notFound
      | some agent =>
        let agent1 := { agent with messages := agent.messages ++ [message] }
        let openai_message : OpenAIMessage :=
          { id := uuidToString message.id
          , created_at := message.created_at
          , content := [{ text := message.text }]
          , role := message.role
          , thread_id := uuidToString message.agent_id
          , assistant_id := DEFAULT_PRESET }
        .ok (openai_message, updateAgent st agent1)

/-- Embeds line 319 of `list_messages`:
`after_uuid = uuid.UUID(after) if before else None` — the `after` cursor is
parsed only when `before` is present; `uuid.UUID(None)` raises `TypeError`. -/
def resolve_after_uuid (after before : Option String) :
    Except HandlerError (Option UUID) :=
  match before with
  | none => .ok none
  | some _ =>
    match after with
    | none => .error .typeError
    | some s =>
      match parseUUID s with
      | none => .error .invalidArgument
      | some u => .ok (some u)

/-- Embeds line 320 of `list_messages`:
`before_uuid = uuid.UUID(before) if before else None`. -/
def resolve_before_uuid (before : Option String) :
    Except HandlerError (Option UUID) :=
  match before with
  | none => .ok none
  | some s =>
    match parseUUID s with
    | none => .error .invalidArgument
    | some u => .ok (some u)

/-- Messages strictly past the `after` cursor message (in stored order). -/
def cutAfter (after : Option UUID) (msgs : List AgentMessage) : List AgentMessage :=
  match after with
  | none => msgs
  | some aid =>
    match msgs.findIdx? (fun m => decide (m.id = aid)) with
    | none => msgs
    | some i => msgs.drop (i + 1)

/-- Messages strictly preceding the `before` cursor message (in stored order). -/
def cutBefore (before : Option UUID) (msgs : List AgentMessage) : List AgentMessage :=
  match before with
  | none => msgs
  | some bid =>
    match msgs.findIdx? (fun m => decide (m.id = bid)) with
    | none => msgs
    | some i => msgs.take i

/-- Modelled from the spec: `server.get_agent_recall_cursor`, the Message
Store `read_range(agent_id, after?, before?, order, limit)` of §6 under the
§4.2 contract — scoped to the Agent (`NotFound` when it does not exist,
§4.1), restricted to the open interval implied by the cursors over the
stored order (creation order, insertion tie-break), traversed in reverse when
`reverse` is set, and cut to at most `limit` records.  The source also
receives a cursor value which `list_messages` ignores; it is omitted here. -/
def get_agent_recall_cursor (st : ServerState) (user_id agent_id : UUID)
    (limit : Nat) (after before : Option UUID) (reverse : Bool) :
    Except HandlerError (List AgentMessage) :=
  match findAgent st agent_id with
  | none => .error .notFound
  | some agent =>
    let windowed := cutBefore before (cutAfter after agent.messages)
    let ordered := if reverse then windowed.reverse else windowed
    .ok (ordered.take limit)

/-- External shape of one stored message record, as built by the list
comprehension of lines 334-346. -/
def openaiOfRecord (message : AgentMessage) : OpenAIMessage :=
  { id := uuidToString message.id
  , created_at := message.created_at
  , content := [{ text := message.text }]
  , role := message.role
  , thread_id := uuidToString message.agent_id
  , assistant_id := DEFAULT_PRESET }

/-- Embeds `list_messages` (lines 307-349) in source order: the gated
`after` resolution (line 319), the `before` resolution (line 320),
`uuid.UUID(thread_id)` (line 321), the recall-cursor read — whose first
keyword argument reads the unbound name `user_id` (line 324) —, the
unconditional `json_messages[0]` access of line 332 (an `IndexError` on an
empty result), and the translation to external message shapes. -/
def list_messages (user_id? : Option UUID) (st : ServerState) (thread_id : String)
    (limit : Nat) (order : String) (after before : Option String) :
    Except HandlerError ListMessagesResponse :=
  match resolve_after_uuid after before with
  | .error e => .error e
  | .ok after_uuid =>
    match resolve_before_uuid before with
    | .error e => .error e
    | .ok before_uuid =>
      match parseUUID thread_id with
      | none => .error .invalidArgument
      | some agent_id =>
        let reverse := order == "desc"
        match user_id? with
        | none => .error (.nameError ("user_id"))
        | some uid =>
          match get_agent_recall_cursor st uid agent_id limit after_uuid before_uuid reverse with
          | .error e => .error e
          | .ok json_messages =>
            match json_messages with
            | [] => .error .indexError
            | m :: ms => .ok { messages := (m :: ms).map openaiOfRecord }

/-- Embeds `create_run` (lines 389-410) in source order: `uuid.UUID(thread_id)`
(line 395), the agent load — whose first keyword argument reads the unbound
name `user_id` (line 397) —, one Agent Engine `step` with no new user message
(the engine is an external collaborator, §6, passed as the function `step`),
then a fresh run id, the clock reading, and the descriptive `OpenAIRun` with
status `"completed"`, which is returned without being stored anywhere in the
server state. -/
def create_run (user_id? : Option UUID) (step : Agent → Agent) (st : ServerState)
    (fresh_run_id : String) (now : Nat) (thread_id : String)
    (request : CreateRunRequest) :
    Except HandlerError (OpenAIRun × ServerState) :=
  match parseUUID thread_id with
  | none => .error .invalidArgument
  | some agent_id =>
    match user_id? with
    | none => .error (.nameError ("user_id"))
    | some uid =>
      match findAgent st agent_id with
      | none => .error .notFound
      | some agent =>
        let agent1 := step agent
        let run : OpenAIRun :=
          { id := fresh_run_id
          , created_at := now
          , thread_id := uuidToString agent_id
          , assistant_id := DEFAULT_PRESET
          , status := "completed"
          , expires_at := now
          , model := agent1.llm_config.model
          , instructions := request.instructions }
        .ok (run, updateAgent st agent1)

/-! The unimplemented handlers.  Each is a verbatim embedding of a handler
whose whole body is
`raise HTTPException(status_code=404, detail="Not yet implemented (coming soon)")`. -/

/-- Embeds `list_assistants` (lines 169-181). -/
def list_assistants (limit : Nat) (order : String) (after before : Option String) :
    Except HandlerError (List OpenAIAssistant) :=
  .error notYetImplemented

/-- Embeds `list_assistant_files` (lines 183-196). -/
def list_assistant_files (assistant_id : String) (limit : Nat) (order : String)
    (after before : Option String) : Except HandlerError (List AssistantFile) :=
  .error notYetImplemented

/-- Embeds `retrieve_assistant_file` (lines 205-211). -/
def retrieve_assistant_file (assistant_id file_id : String) :
    Except HandlerError AssistantFile :=
  .error notYetImplemented

/-- Embeds `modify_assistant` (lines 213-219). -/
def modify_assistant (assistant_id : String) (request : CreateAssistantRequest) :
    Except HandlerError OpenAIAssistant :=
  .error notYetImplemented

/-- Embeds `delete_assistant` (lines 221-226). -/
def delete_assistant (assistant_id : String) :
    Except HandlerError DeleteAssistantResponse :=
  .error notYetImplemented

/-- Embeds `delete_assistant_file` (lines 228-234). -/
def delete_assistant_file (assistant_id file_id : String) :
    Except HandlerError DeleteAssistantFileResponse :=
  .error notYetImplemented

/-- Embeds `modify_thread` (lines 263-269). -/
def modify_thread (thread_id : String) (request : ModifyThreadRequest) :
    Except HandlerError OpenAIThread :=
  .error notYetImplemented

/-- Embeds `delete_thread` (lines 271-276). -/
def delete_thread (thread_id : String) :
    Except HandlerError DeleteThreadResponse :=
  .error notYetImplemented

/-- Embeds `modify_message` (lines 380-387). -/
def modify_message (thread_id message_id : String) (request : ModifyMessageRequest) :
    Except HandlerError OpenAIMessage :=
  .error notYetImplemented

/-- Embeds `create_thread_and_run` (lines 412-417). -/
def create_thread_and_run (request : CreateThreadRunRequest) :
    Except HandlerError OpenAIRun :=
  .error notYetImplemented

/-- Embeds `list_runs` (lines 419-432). -/
def list_runs (thread_id : String) (limit : Nat) (order : String)
    (after before : Option String) : Except HandlerError (List OpenAIRun) :=
  .error notYetImplemented

/-- Embeds `list_run_steps` (lines 434-448). -/
def list_run_steps (thread_id run_id : String) (limit : Nat) (order : String)
    (after before : Option String) : Except HandlerError (List OpenAIRunStep) :=
  .error notYetImplemented

/-- Embeds `retrieve_run` (lines 450-455). -/
def retrieve_run (thread_id run_id : String) : Except HandlerError OpenAIRun :=
  .error notYetImplemented

/-- Embeds `retrieve_run_step` (lines 457-463). -/
def retrieve_run_step (thread_id run_id step_id : String) :
    Except HandlerError OpenAIRunStep :=
  .error notYetImplemented

/-- Embeds `modify_run` (lines 465-471). -/
def modify_run (thread_id run_id : String) (request : ModifyRunRequest) :
    Except HandlerError OpenAIRun :=
  .error notYetImplemented

/-- Embeds `submit_tool_outputs_to_run` (lines 473-479). -/
def submit_tool_outputs_to_run (thread_id run_id : String)
    (request : SubmitToolOutputsToRunRequest) : Except HandlerError OpenAIRun :=
  .error notYetImplemented

/-- Embeds `cancel_run` (lines 481-486). -/
def cancel_run (thread_id run_id : String) : Except HandlerError OpenAIRun :=
  .error notYetImplemented

/-! Concrete fixtures used by the closed evaluation theorems. -/

/-- A concrete agent with identifier 1, creation time 42 and no messages. -/
def agentOne : Agent :=
  { id := ⟨1⟩, created_at := 42, messages := [], llm_config := { model := "gpt-4" } }

/-- A server state holding exactly `agentOne`. -/
def stOne : ServerState := { agents := [agentOne] }

/-- A server state with no agents. -/
def stEmpty : ServerState := { agents := [] }

/-- A concrete stored message with identifier 10, the first message of
`agentTwo`. -/
def msgTen : AgentMessage :=
  { id := ⟨10⟩, user_id := none, agent_id := ⟨2⟩
  , role := "user", text := "a", created_at := 1 }

/-- A concrete stored message with identifier 11, the second message of
`agentTwo`. -/
def msgEleven : AgentMessage :=
  { id := ⟨11⟩, user_id := none, agent_id := ⟨2⟩
  , role := "assistant", text := "b", created_at := 2 }

/-- A concrete agent with identifier 2 holding two adjacent messages, so the
open cursor interval between them contains zero messages. -/
def agentTwo : Agent :=
  { id := ⟨2⟩, created_at := 43, messages := [msgTen, msgEleven]
  , llm_config := { model := "gpt-4" } }

/-- A server state holding exactly `agentTwo`. -/
def stTwo : ServerState := { agents := [agentTwo] }

/-! Claim theorems. -/

/-- C1 counterexample: a well-formed but unsupported call (`retrieve_run` on
two syntactically valid identifiers) fails with an `HTTPException` whose
status code is exactly `NOT_FOUND_STATUS` = 404, the HTTP Not Found status —
so the failure is not a condition distinct from NotFound at the status level,
refuting the claim that no such call ever returns NotFound. -/
theorem unimplemented_is_not_found_status :
    retrieve_run ("00000000-0000-0000-0000-000000000001")
        ("11111111-1111-1111-1111-111111111111")
      = .error (.httpException NOT_FOUND_STATUS ("Not yet implemented (coming soon)"))
    ∧ NOT_FOUND_STATUS = 404 :=
  ⟨rfl, rfl⟩

/-- C1 (amended): every unimplemented resource operation enumerated by the
claim fails unconditionally — it never silently succeeds — with
`HTTPException(status_code=404, detail="Not yet implemented (coming soon)")`;
the status code equals the NotFound status 404, so the not-implemented
condition is distinguishable from NotFound only by the detail string. -/
theorem unimplemented_endpoints_spec :
    notYetImplemented = HandlerError.httpException 404 ("Not yet implemented (coming soon)")
    ∧ (∀ limit order after before,
        list_assistants limit order after before = .error notYetImplemented)
    ∧ (∀ assistant_id limit order after before,
        list_assistant_files assistant_id limit order after before = .error notYetImplemented)
    ∧ (∀ assistant_id file_id,
        retrieve_assistant_file assistant_id file_id = .error notYetImplemented)
    ∧ (∀ assistant_id request,
        modify_assistant assistant_id request = .error notYetImplemented)
    ∧ (∀ assistant_id,
        delete_assistant assistant_id = .error notYetImplemented)
    ∧ (∀ assistant_id file_id,
        delete_assistant_file assistant_id file_id = .error notYetImplemented)
    ∧ (∀ thread_id request,
        modify_thread thread_id request = .error notYetImplemented)
    ∧ (∀ thread_id,
        delete_thread thread_id = .error notYetImplemented)
    ∧ (∀ thread_id message_id request,
        modify_message thread_id message_id request = .error notYetImplemented)
    ∧ (∀ request,
        create_thread_and_run request = .error notYetImplemented)
    ∧ (∀ thread_id limit order after before,
        list_runs thread_id limit order after before = .error notYetImplemented)
    ∧ (∀ thread_id run_id limit order after before,
        list_run_steps thread_id run_id limit order after before = .error notYetImplemented)
    ∧ (∀ thread_id run_id,
        retrieve_run thread_id run_id = .error notYetImplemented)
    ∧ (∀ thread_id run_id step_id,
        retrieve_run_step thread_id run_id step_id = .error notYetImplemented)
    ∧ (∀ thread_id run_id request,
        modify_run thread_id run_id request = .error notYetImplemented)
    ∧ (∀ thread_id run_id request,
        submit_tool_outputs_to_run thread_id run_id request = .error notYetImplemented)
    ∧ (∀ thread_id run_id,
        cancel_run thread_id run_id = .error notYetImplemented) := by
  refine ⟨rfl, ?_, ?_, ?_, ?_, ?_, ?_, ?_, ?_, ?_, ?_, ?_, ?_, ?_, ?_, ?_, ?_, ?_⟩ <;>
    intros <;> rfl

/-- C2: the source line `after_uuid = uuid.UUID(after) if before else None`
(line 319) resolves a supplied, well-formed `after` cursor to `None` whenever
`before` is absent — the resolution of `after` is gated on the presence of
`before`, contradicting the specified independent resolution of the two
bounds. -/
theorem resolve_after_gated_on_before :
    resolve_after_uuid (some ("00000000-0000-0000-0000-000000000001")) none = .ok none
    ∧ parseUUID ("00000000-0000-0000-0000-000000000001") = some ⟨1⟩ :=
  ⟨rfl, by decide⟩

/-- C3 counterexample: an invocation of `create_message` with a malformed
`thread_id` fails with the identifier-parse error (`uuid.UUID` raises
`ValueError` at line 283, before the `user_id` read at line 286), not with a
name-resolution error — so not every invocation of the four handlers fails
with a name-resolution error. -/
theorem unresolved_user_id_counterexample :
    create_message module_user_id stOne ⟨9⟩ 0 ("not-a-uuid")
        { role := "user", content := "hi", file_ids := none, metadata := none }
      = .error .invalidArgument
    ∧ HandlerError.invalidArgument ≠ HandlerError.nameError ("user_id") :=
  ⟨rfl, by decide⟩

/-- C3 (amended): the name `user_id` is bound in no scope of assistants.py —
not in the locals of `create_thread`, `create_message`, `list_messages` or
`create_run`, not in `setup_openai_assistant_router`, not at module level —
and with that binding absent every invocation of `create_thread` fails with a
name-resolution error, as does every invocation of `create_message`,
`list_messages` and `create_run` whose identifier and cursor arguments parse
(invocations with malformed identifiers fail earlier, with the parse error). -/
theorem unresolved_user_id_in_handlers :
    (moduleScopeNames.contains ("user_id") = false
     ∧ setupScopeNames.contains ("user_id") = false
     ∧ createThreadLocalNames.contains ("user_id") = false
     ∧ createMessageLocalNames.contains ("user_id") = false
     ∧ listMessagesLocalNames.contains ("user_id") = false
     ∧ createRunLocalNames.contains ("user_id") = false)
    ∧ (∀ st fresh_id now cfg request,
        create_thread module_user_id st fresh_id now cfg request
          = .error (.nameError ("user_id")))
    ∧ (∀ st mid now thread_id request agent_id,
        parseUUID thread_id = some agent_id →
        create_message module_user_id st mid now thread_id request
          = .error (.nameError ("user_id")))
    ∧ (∀ st thread_id limit order after before agent_id after_uuid before_uuid,
        resolve_after_uuid after before = .ok after_uuid →
        resolve_before_uuid before = .ok before_uuid →
        parseUUID thread_id = some agent_id →
        list_messages module_user_id st thread_id limit order after before
          = .error (.nameError ("user_id")))
    ∧ (∀ step st run_id now thread_id request agent_id,
        parseUUID thread_id = some agent_id →
        create_run module_user_id step st run_id now thread_id request
          = .error (.nameError ("user_id"))) := by
  refine ⟨⟨by decide, by decide, by decide, by decide, by decide, by decide⟩,
    ?_, ?_, ?_, ?_⟩
  · intro st fresh_id now cfg request
    rfl
  · intro st mid now thread_id request agent_id h
    simp [create_message, module_user_id, h]
  · intro st thread_id limit order after before agent_id after_uuid before_uuid h1 h2 h3
    simp [list_messages, module_user_id, h1, h2, h3]
  · intro step st run_id now thread_id request agent_id h
    simp [create_run, module_user_id, h]

/-- C3 witness: the amended theorem applied at concrete inputs, with every
parse hypothesis discharged on concrete well-formed identifiers. -/
theorem unresolved_user_id_in_handlers_witness :
    create_thread module_user_id stEmpty ⟨3⟩ 10 { model := "gpt-4" }
        { messages := none, metadata := none, assistant_name := none }
      = .error (.nameError ("user_id"))
    ∧ create_message module_user_id stOne ⟨4⟩ 11 ("00000000-0000-0000-0000-000000000001")
        { role := "user", content := "hello", file_ids := none, metadata := none }
      = .error (.nameError ("user_id"))
    ∧ list_messages module_user_id stOne ("00000000-0000-0000-0000-000000000001")
        1000 ("desc") none none
      = .error (.nameError ("user_id"))
    ∧ create_run module_user_id (fun a => a) stOne ("run-1") 12
        ("00000000-0000-0000-0000-000000000001")
        { assistant_id := DEFAULT_PRESET, model := none, instructions := "go",
          additional_instructions := none, tools := none, metadata := none }
      = .error (.nameError ("user_id")) := by
  refine ⟨unresolved_user_id_in_handlers.2.1 _ _ _ _ _,
    unresolved_user_id_in_handlers.2.2.1 _ _ _ _ _ ⟨1⟩ (by decide),
    unresolved_user_id_in_handlers.2.2.2.1 _ _ _ _ _ _ ⟨1⟩ none none rfl rfl (by decide),
    unresolved_user_id_in_handlers.2.2.2.2 _ _ _ _ _ _ ⟨1⟩ (by decide)⟩

/-- C4: a valid `create_run` call on an existing thread (the agent of `stOne`,
addressed by its well-formed identifier) does not reach the Agent Engine step
or return a completed Run: it fails with the name-resolution error on the
unbound `user_id` read at line 397, before the agent is resolved. -/
theorem create_run_unbound_user_id :
    create_run module_user_id (fun a => a) stOne ("run-2") 100
        ("00000000-0000-0000-0000-000000000001")
        { assistant_id := DEFAULT_PRESET, model := none, instructions := "run instructions",
          additional_instructions := none, tools := none, metadata := none }
      = .error (.nameError ("user_id")) :=
  rfl

/-- C5: a valid `create_message` call on an existing thread appends nothing:
it fails with the name-resolution error on the unbound `user_id` read at line
286, while constructing the message and before the agent is loaded. -/
theorem create_message_unbound_user_id :
    create_message module_user_id stOne ⟨21⟩ 7 ("00000000-0000-0000-0000-000000000001")
        { role := "user", content := "hello world", file_ids := none, metadata := none }
      = .error (.nameError ("user_id")) :=
  rfl

/-- C6: `retrieve_thread` fails with the InvalidArgument condition exactly
when `thread_id` does not parse as an Agent identifier, fails with NotFound
when it parses but no such Agent exists, and otherwise returns the Thread
shape carrying the Agent's real creation timestamp. -/
theorem retrieve_thread_spec (st : ServerState) (thread_id : String) :
    (parseUUID thread_id = none →
      retrieve_thread st thread_id = .error .invalidArgument)
    ∧ (∀ tid, parseUUID thread_id = some tid → findAgent st tid = none →
        retrieve_thread st thread_id = .error .notFound)
    ∧ (∀ tid agent, parseUUID thread_id = some tid → findAgent st tid = some agent →
        retrieve_thread st thread_id
          = .ok { id := uuidToString agent.id, created_at := agent.created_at }) := by
  refine ⟨?_, ?_, ?_⟩
  · intro h
    simp [retrieve_thread, h]
  · intro tid h1 h2
    simp [retrieve_thread, h1, h2]
  · intro tid agent h1 h2
    simp [retrieve_thread, h1, h2]

/-- C6 witness: the three branches of `retrieve_thread_spec` at concrete
inputs — a malformed identifier, a well-formed identifier of a never-created
Agent, and the identifier of the existing `agentOne`. -/
theorem retrieve_thread_spec_witness :
    retrieve_thread stOne ("not-a-uuid") = .error .invalidArgument
    ∧ retrieve_thread stOne ("00000000-0000-0000-0000-0000000000ff") = .error .notFound
    ∧ retrieve_thread stOne ("00000000-0000-0000-0000-000000000001")
      = .ok { id := uuidToString agentOne.id, created_at := agentOne.created_at } := by
  refine ⟨(retrieve_thread_spec stOne _).1 (by decide),
    (retrieve_thread_spec stOne _).2.1 ⟨255⟩ (by decide) (by decide),
    (retrieve_thread_spec stOne _).2.2 ⟨1⟩ agentOne (by decide) (by decide)⟩

/-- C7: a valid `create_thread` call never returns a Thread at all: it fails
with the name-resolution error on the unbound `user_id` read at line 245,
before any Agent is allocated. -/
theorem create_thread_unbound_user_id :
    create_thread module_user_id stEmpty ⟨6⟩ 50 { model := "gpt-4" }
        { messages := none, metadata := none, assistant_name := none }
      = .error (.nameError ("user_id")) :=
  rfl

/-- C8 counterexample: `create_assistant` does not echo the request's `name`
— the handler hard-codes the string `"default_preset"` (line 147), so a
request named `"my assistant"` comes back with a different name. -/
theorem create_assistant_name_not_echoed :
    (create_assistant 0
        { model := "gpt-4", name := "my assistant", description := some ("d"),
          instructions := "i", tools := none, file_ids := none, metadata := none,
          embedding_model := none }).name = "default_preset"
    ∧ ("default_preset" : String) ≠ "my assistant" :=
  ⟨rfl, by decide⟩

/-- C8 (amended): `create_assistant` never fails and touches no store (it is
a pure record construction), returning an Assistant whose `id` is the fixed
default identifier, whose `name` is the fixed string `"default_preset"`
rather than the request's name, whose remaining fields (description, model,
instructions, tools, file_ids, metadata) echo the request, and whose
timestamp is the generated clock reading. -/
theorem create_assistant_spec (now : Nat) (request : CreateAssistantRequest) :
    (create_assistant now request).id = DEFAULT_PRESET
    ∧ (create_assistant now request).name = "default_preset"
    ∧ (create_assistant now request).description = request.description
    ∧ (create_assistant now request).model = request.model
    ∧ (create_assistant now request).instructions = request.instructions
    ∧ (create_assistant now request).tools = request.tools
    ∧ (create_assistant now request).file_ids = request.file_ids
    ∧ (create_assistant now request).metadata = request.metadata
    ∧ (create_assistant now request).created_at = now :=
  ⟨rfl, rfl, rfl, rfl, rfl, rfl, rfl, rfl, rfl⟩

/-- C9: the round-trip cannot begin — on the existing thread of `stOne`, the
appending `create_message` call and the subsequent `list_messages` call with
the default large limit and default ordering both fail with the
name-resolution error on the unbound `user_id`, so no appended message is
ever returned. -/
theorem message_roundtrip_unbound_user_id :
    create_message module_user_id stOne ⟨31⟩ 9 ("00000000-0000-0000-0000-000000000001")
        { role := "user", content := "roundtrip", file_ids := none, metadata := none }
      = .error (.nameError ("user_id"))
    ∧ list_messages module_user_id stOne ("00000000-0000-0000-0000-000000000001")
        1000 ("asc") none none
      = .error (.nameError ("user_id")) :=
  ⟨rfl, rfl⟩

/-- C10 counterexample: on the freshly created (message-less) thread of
`stOne`, `list_messages` indeed fails rather than returning an empty list,
but with the name-resolution error on `user_id` (line 324) — not with the
index error of the unconditional `json_messages[0]` access of line 332, which
is never reached — refuting the claimed failure mechanism. -/
theorem list_messages_empty_thread_counterexample :
    list_messages module_user_id stOne ("00000000-0000-0000-0000-000000000001")
        1000 ("asc") none none
      = .error (.nameError ("user_id"))
    ∧ HandlerError.nameError ("user_id") ≠ HandlerError.indexError :=
  ⟨rfl, by decide⟩

/-- C10 (amended): for every existing thread and every paginated read over it
— any cursor bounds whose resolution succeeds, any limit, any ordering — that
yields zero matching messages, `list_messages` never returns an empty message
list but fails: in the code as written with the name-resolution error on the
unbound `user_id`, raised before the read; and even under an injected
`user_id` binding, with the index error of the unconditional first-element
access on the empty result. -/
theorem list_messages_empty_thread (uid : UUID) (st : ServerState)
    (thread_id : String) (limit : Nat) (order : String)
    (after before : Option String) (after_uuid before_uuid : Option UUID)
    (agent_id : UUID)
    (hafter : resolve_after_uuid after before = .ok after_uuid)
    (hbefore : resolve_before_uuid before = .ok before_uuid)
    (hparse : parseUUID thread_id = some agent_id)
    (hzero : get_agent_recall_cursor st uid agent_id limit after_uuid before_uuid
        (order == "desc") = .ok []) :
    list_messages module_user_id st thread_id limit order after before
      = .error (.nameError ("user_id"))
    ∧ list_messages (some uid) st thread_id limit order after before
      = .error .indexError := by
  constructor
  · simp [list_messages, module_user_id, hafter, hbefore, hparse]
  · simp [list_messages, hafter, hbefore, hparse, hzero]

/-- C10 witness: the amended theorem applied to an existing thread and a
cursor interval containing zero messages — the open interval between the two
adjacent messages of `agentTwo` — with every hypothesis discharged
concretely. -/
theorem list_messages_empty_thread_witness :
    list_messages module_user_id stTwo ("00000000-0000-0000-0000-000000000002")
        5 ("asc")
        (some ("00000000-0000-0000-0000-00000000000a"))
        (some ("00000000-0000-0000-0000-00000000000b"))
      = .error (.nameError ("user_id"))
    ∧ list_messages (some ⟨77⟩) stTwo ("00000000-0000-0000-0000-000000000002")
        5 ("asc")
        (some ("00000000-0000-0000-0000-00000000000a"))
        (some ("00000000-0000-0000-0000-00000000000b"))
      = .error .indexError :=
  list_messages_empty_thread ⟨77⟩ stTwo ("00000000-0000-0000-0000-000000000002")
    5 ("asc")
    (some ("00000000-0000-0000-0000-00000000000a"))
    (some ("00000000-0000-0000-0000-00000000000b"))
    (some ⟨10⟩) (some ⟨11⟩) ⟨2⟩ rfl rfl (by decide) rfl

end Assistants
